import Mathlib

/-!
Verification of the key-path lexer and tree-assignment core of `j2pp.py`
(`split_dot_or_dict_syntax`, `_add`, `parse_defines`), shallowly embedded in
Lean 4.  Python dictionaries are modelled as insertion-ordered association
lists; Python exceptions (`AssertionError` from the lexer's `assert`,
`AttributeError` from calling `.debug` on `None`, `IndexError` from `ks[-1]`
on an empty list) are modelled by `Except PyErr`.  The optional `logger`
argument is modelled by a `Bool` (`true` = a logger object is present,
`false` = `logger is None`); logging itself has no effect on the result, but
an unguarded `logger.debug(...)` call with `logger = None` raises
`AttributeError` in Python, which the model reflects.
-/

set_option autoImplicit false

namespace J2pp

inductive PyErr where
  | assertionError
  | attributeError
  | indexError
deriving DecidableEq, Repr

/-- A value in the tree built by `parse_defines`: a string scalar, the
untyped default value (of caller-chosen type `α`), a Python list, or a
nested dictionary (insertion-ordered association list). -/
inductive Value (α : Type) where
  | str : String → Value α
  | dflt : α → Value α
  | list : List (Value α) → Value α
  | map : List (String × Value α) → Value α

abbrev PyDict (α : Type) := List (String × Value α)

/-- A scalar in the sense of the spec: a string value or the untyped
default value — not a list and not a nested dict. -/
def isScalarV {α : Type} : Value α → Bool
  | .str _ => true
  | .dflt _ => true
  | .list _ => false
  | .map _ => false

/-- `d[k]` lookup on an insertion-ordered dict (keys are unique, so the
first match is the only match). -/
def findk {α : Type} : PyDict α → String → Option (Value α)
  | [], _ => none
  | (k', v') :: rest, k => if k' = k then some v' else findk rest k

/-- `d[k] = v` on an insertion-ordered dict: replace in place if the key
exists, append at the end otherwise (Python-dict insertion-order
semantics). -/
def setk {α : Type} : PyDict α → String → Value α → PyDict α
  | [], k, v => [(k, v)]
  | (k', v') :: rest, k, v =>
    if k' = k then (k, v) :: rest else (k', v') :: setk rest k v

/-! ## The lexer: `split_dot_or_dict_syntax` -/

/-- Scanner state of `split_dot_or_dict_syntax`: components emitted so far,
the current component buffer `cur`, and the bracket-nesting counter
`nested` (a Python `int`, so it may go negative on a stray `]`). -/
structure LexState where
  result : List String
  cur : List Char
  nested : Int
deriving Repr

/-- One step of the character scan in `split_dot_or_dict_syntax`. -/
def lexStep (st : LexState) (ch : Char) : LexState :=
  if ch = '.' then
    if st.nested ≠ 0 then { st with cur := st.cur ++ [ch] }
    else if st.cur ≠ [] then
      { st with result := st.result ++ [String.mk st.cur], cur := [] }
    else st
  else if ch = '[' then
    let st' :=
      if st.nested ≠ 0 then { st with cur := st.cur ++ [ch] }
      else if st.cur ≠ [] then
        { st with result := st.result ++ [String.mk st.cur], cur := [] }
      else st
    { st' with nested := st'.nested + 1 }
  else if ch = ']' then
    let st' := { st with nested := st.nested - 1 }
    if st'.nested ≠ 0 then { st' with cur := st'.cur ++ [ch] }
    else if st'.cur ≠ [] then
      { st' with result := st'.result ++ [String.mk st'.cur], cur := [] }
    else st'
  else { st with cur := st.cur ++ [ch] }

/-- Scanner state after the `for ch in expr` loop of
`split_dot_or_dict_syntax`, starting from empty result, empty buffer and
depth 0. -/
def lexScan (expr : String) : LexState :=
  expr.data.foldl lexStep ⟨[], [], 0⟩

/-- `split_dot_or_dict_syntax(expr)`: scan the characters, then `assert
nested == 0` (an `AssertionError` models the unbalanced-bracket failure),
then flush a non-empty buffer as the final component. -/
def split_dot_or_dict_syntax (expr : String) : Except PyErr (List String) :=
  if (lexScan expr).nested ≠ 0 then .error .assertionError
  else .ok (if (lexScan expr).cur ≠ [] then
      (lexScan expr).result ++ [String.mk (lexScan expr).cur]
    else (lexScan expr).result)

/-! ## The assigner: `_add` and the body of `parse_defines` -/

/-- `_add(target, key, val, logger)`.  If the key is present and its value
is not a list, Python first calls `logger.debug(...)` (raising
`AttributeError` when `logger is None`), then wraps the old value in a
one-element list and appends; if it is already a list it appends with no
logging; if the key is absent it sets the value and then logs (the
`AttributeError` then propagates out and discards the result dict, so the
model reports only the error). -/
def py_add {α : Type} (target : PyDict α) (key : String) (val : Value α)
    (logB : Bool) : Except PyErr (PyDict α) :=
  match findk target key with
  | some (.list l) => .ok (setk target key (.list (l ++ [val])))
  | some v0 =>
      if logB then .ok (setk target key (.list [v0, val]))
      else .error .attributeError
  | none =>
      if logB then .ok (setk target key val)
      else .error .attributeError

/-- The multi-component branch of `parse_defines`, combining the head walk
(`for n, h in enumerate(head)`) with the tail conflict rule.  The mutation
of nested dicts through the `target` alias is rendered by rebuilding the
dict along the walked path; the returned `Bool` is the `ok` flag (`false` =
the walk hit an existing non-dict value with `lengthen` off and the
assignment was aborted, with all mutations made before the `break` kept). -/
def setPath {α : Type} (lengthen shorten logB : Bool) (v : Value α) :
    List String → String → PyDict α → Except PyErr (PyDict α × Bool)
  | [], tail, target =>
    match findk target tail with
    | some (.map _) =>
        if shorten then .ok (setk target tail v, true)
        else .ok (target, true)
    | _ =>
        match py_add target tail v logB with
        | .error e => .error e
        | .ok t => .ok (t, true)
  | h :: rest, tail, target =>
      match findk target h with
      | none =>
          match setPath lengthen shorten logB v rest tail ([] : PyDict α) with
          | .error e => .error e
          | .ok (m, ok) => .ok (setk (setk target h (.map [])) h (.map m), ok)
      | some (.map m) =>
          match setPath lengthen shorten logB v rest tail m with
          | .error e => .error e
          | .ok (m', ok) => .ok (setk target h (.map m'), ok)
      | some _ =>
          if lengthen then
            match setPath lengthen shorten logB v rest tail ([] : PyDict α) with
            | .error e => .error e
            | .ok (m', ok) => .ok (setk target h (.map m'), ok)
          else .ok (target, false)

/-- Split a character list at the first `'='` (Python `kv.split('=', 1)`
when `'=' in kv`); `none` when there is no `'='`. -/
def splitEq : List Char → Option (List Char × List Char)
  | [] => none
  | c :: rest =>
    if c = '=' then some ([], rest)
    else
      match splitEq rest with
      | some (a, b) => some (c :: a, b)
      | none => none

/-- Assignment of one already-split key/value pair, from the body of the
loop in `parse_defines`: lex the key, then either take the `len(ks) == 1`
shortcut `_add(result, k, v, logger)` — note: with the raw key `k`, not
the lexed component — or walk the nested dictionaries with head
`ks[:-1]` and tail `ks[-1]`.  When `ks` is empty, `ks[-1]` raises
`IndexError`. -/
def assignDefine {α : Type} (lengthen shorten logB : Bool)
    (target : PyDict α) (k : String) (v : Value α) : Except PyErr (PyDict α) :=
  match split_dot_or_dict_syntax k with
  | .error e => .error e
  | .ok [] => .error .indexError
  | .ok [_] => py_add target k v logB
  | .ok (c1 :: c2 :: cs) =>
      match setPath lengthen shorten logB v ((c1 :: c2 :: cs).dropLast)
          ((c1 :: c2 :: cs).getLastD c1) target with
      | .error e => .error e
      | .ok (t, _) => .ok t

/-- Processing of one element `kv` of `defs` inside the loop of
`parse_defines`: split key from value at the first `=`; when there is no
`=`, the key is the whole string and the value is the default, used
unconverted. -/
def parseOne {α : Type} (dflt : α) (lengthen shorten logB : Bool)
    (target : PyDict α) (kv : String) : Except PyErr (PyDict α) :=
  match splitEq kv.data with
  | some (a, b) =>
      assignDefine lengthen shorten logB target (String.mk a)
        (Value.str (String.mk b))
  | none => assignDefine lengthen shorten logB target kv (Value.dflt dflt)

/-- `parse_defines(defs, default, lengthen, shorten, logger)`: fold the
per-define assignment over the input list, starting from the empty root
dict; the first Python exception aborts the whole build. -/
def parse_defines {α : Type} (defs : List String) (dflt : α)
    (lengthen shorten logB : Bool) : Except PyErr (PyDict α) :=
  defs.foldlM (fun acc kv => parseOne dflt lengthen shorten logB acc kv) []

/-! ## Lemmas about the lexer scan -/

/-- Once the scanner has a non-empty buffer or has emitted a component, no
later step can bring it back to the all-empty state: emitting moves the
buffer into `result`, and `result` never shrinks. -/
theorem lexStep_preserves_nonempty (st : LexState) (c : Char)
    (h : st.cur ≠ [] ∨ st.result ≠ []) :
    (lexStep st c).cur ≠ [] ∨ (lexStep st c).result ≠ [] := by
  unfold lexStep
  rcases h with h | h <;> split_ifs <;> simp_all <;>
    (try split_ifs <;> simp_all)

/-- A character that is not `'.'`, `'['` or `']'` is always appended to the
current component buffer. -/
theorem lexStep_other (st : LexState) (c : Char)
    (h1 : c ≠ '.') (h2 : c ≠ '[') (h3 : c ≠ ']') :
    lexStep st c = { st with cur := st.cur ++ [c] } := by
  unfold lexStep
  simp [h1, h2, h3]

/-- Non-emptiness of the scanner state is preserved by any run of steps. -/
theorem foldl_lexStep_preserves_nonempty (l : List Char) (st : LexState)
    (h : st.cur ≠ [] ∨ st.result ≠ []) :
    (l.foldl lexStep st).cur ≠ [] ∨ (l.foldl lexStep st).result ≠ [] := by
  induction l generalizing st with
  | nil => simpa using h
  | cons c l ih =>
    rw [List.foldl_cons]
    exact ih _ (lexStep_preserves_nonempty st c h)

/-- Each scan step changes `nested` by `+1` on `'['`, by `-1` on `']'`,
and not at all on any other character. -/
theorem lexStep_nested (st : LexState) (c : Char) :
    (lexStep st c).nested =
      st.nested + (if c = '[' then 1 else 0) - (if c = ']' then 1 else 0) := by
  unfold lexStep
  split_ifs <;> simp_all <;> (try split_ifs <;> simp_all)

/-- After scanning a character list, `nested` equals its initial value plus
the number of `'['` seen minus the number of `']'` seen. -/
theorem foldl_lexStep_nested (l : List Char) (st : LexState) :
    (l.foldl lexStep st).nested =
      st.nested + (l.count '[' : Int) - (l.count ']' : Int) := by
  induction l generalizing st with
  | nil => simp
  | cons c l ih =>
    rw [List.foldl_cons, ih, lexStep_nested]
    simp only [List.count_cons]
    by_cases h1 : c = '[' <;> by_cases h2 : c = ']' <;>
      simp_all <;> omega

/-! ## Lemmas about the assigner -/

/-- Writing back the value a key already holds leaves the dict unchanged. -/
theorem setk_findk_self {α : Type} (t : PyDict α) (k : String) (v : Value α)
    (h : findk t k = some v) : setk t k v = t := by
  induction t with
  | nil => simp [findk] at h
  | cons p rest ih =>
    obtain ⟨k', v'⟩ := p
    by_cases hk : k' = k
    · subst hk
      simp only [findk, if_pos, Option.some.injEq] at h
      simp [setk, h]
    · simp only [findk, if_neg hk] at h
      simp [setk, hk, ih h]

/-- Starting the head walk from a fresh empty dict can never abort: every
component is absent, so the walk only ever creates new empty dicts and
never meets an existing leaf. -/
theorem setPath_from_empty_never_aborts {α : Type}
    (lengthen shorten logB : Bool) (v : Value α) (head : List String)
    (tail : String) (t : PyDict α) (ok : Bool)
    (h : setPath lengthen shorten logB v head tail [] = .ok (t, ok)) :
    ok = true := by
  induction head generalizing t ok with
  | nil =>
    simp only [setPath, findk] at h
    cases hpa : py_add ([] : PyDict α) tail v logB with
    | error e => rw [hpa] at h; cases h
    | ok t' =>
      rw [hpa] at h
      simp only [Except.ok.injEq, Prod.mk.injEq] at h
      exact h.2.symm
  | cons hd rest ih =>
    simp only [setPath, findk] at h
    cases hrec : setPath lengthen shorten logB v rest tail ([] : PyDict α) with
    | error e => rw [hrec] at h; cases h
    | ok p =>
      obtain ⟨m, ok'⟩ := p
      rw [hrec] at h
      simp only [Except.ok.injEq, Prod.mk.injEq] at h
      rw [← h.2]
      exact ih m ok' hrec

/-! ## Sanity checks against the doctests of `split_dot_or_dict_syntax` -/

example : split_dot_or_dict_syntax "a.b.c" = .ok ["a", "b", "c"] := by rfl

example : split_dot_or_dict_syntax "a[b[1]].c" = .ok ["a", "b[1]", "c"] := by rfl

example : split_dot_or_dict_syntax "a.b[c[1].d].e" = .ok ["a", "b", "c[1].d", "e"] := by rfl

example : split_dot_or_dict_syntax "a[b[1].c" = .error .assertionError := by rfl

/-! ## Claim theorems -/

/-- C1: the claim says a single-component key path is stored under the lexed
component, so that building `["[x]=1"]` stores the value under `"x"`.  The
code instead passes the raw key string `k` to `_add` in the `len(ks) == 1`
shortcut, so the value is stored under `"[x]"` and a lookup of the lexed
component `"x"` finds nothing — even though the key `"[x]"` lexes to the
single component `"x"`. -/
theorem claim1_shortcut_stores_raw_key_not_lexed_component :
    parse_defines ["[x]=1"] (1 : Nat) true false true =
      .ok [("[x]", Value.str "1")] ∧
    split_dot_or_dict_syntax "[x]" = .ok ["x"] ∧
    findk [("[x]", (Value.str "1" : Value Nat))] "x" = none := by
  exact ⟨rfl, rfl, rfl⟩

/-- C3: the claim says every List node contains only Scalars and the
multi-value merge rule is never applied at a key holding a Map.  But the
single-component shortcut calls `_add` without checking for an existing
dict, so building `["a[b]=1", "a=2"]` wraps the existing Map
`{"b": "1"}` into a List: the result is `{"a": [{"b": "1"}, "2"]}`. -/
theorem claim3_list_can_contain_map_via_shortcut :
    parse_defines ["a[b]=1", "a=2"] (1 : Nat) true false true =
      .ok [("a", Value.list [Value.map [("b", Value.str "1")], Value.str "2"])] := by
  rfl

/-- C4: the claim says running the build without an observer (`logger =
None`) gives the same outcome as with one.  But `_add` calls
`logger.debug(...)` without the `if logger:` guard used everywhere else in
`parse_defines`, so with `logger = None` the very first scalar assignment
raises `AttributeError`, while with a logger present the same input
returns `{"a": "1"}`. -/
theorem claim4_logger_none_crashes_in_add :
    parse_defines ["a=1"] (1 : Nat) true false false = .error .attributeError ∧
    parse_defines ["a=1"] (1 : Nat) true false true =
      .ok [("a", Value.str "1")] := by
  exact ⟨rfl, rfl⟩

/-- C2 counterexample: the claim says the lexer never returns an empty
component list for non-empty input, naming `lex(".")` and `lex("[]")`
directly.  Both inputs are non-empty, both succeed, and both return the
empty list: a lone separator or an empty bracket group never makes the
buffer non-empty, so nothing is ever emitted. -/
theorem claim2_counterexample :
    split_dot_or_dict_syntax "." = .ok [] ∧
    split_dot_or_dict_syntax "[]" = .ok [] ∧
    "." ≠ "" ∧ "[]" ≠ "" := by
  exact ⟨rfl, rfl, by decide, by decide⟩

/-- C2 amended: the lexer can return an empty KeyPath for non-empty input
made only of the structural characters `'.'`, `'['`, `']'` (e.g. `"."` and
`"[]"`); but for every input containing at least one non-structural
character, a successful lex returns a non-empty component list. -/
theorem claim2_amended_nonempty_output (expr : String)
    (hc : ∃ c ∈ expr.data, c ≠ '.' ∧ c ≠ '[' ∧ c ≠ ']')
    (r : List String) (hr : split_dot_or_dict_syntax expr = .ok r) :
    r ≠ [] := by
  obtain ⟨c, hmem, h1, h2, h3⟩ := hc
  obtain ⟨l1, l2, hsplit⟩ := List.append_of_mem hmem
  have hstate : (lexScan expr).cur ≠ [] ∨ (lexScan expr).result ≠ [] := by
    unfold lexScan
    rw [hsplit, List.foldl_append, List.foldl_cons]
    apply foldl_lexStep_preserves_nonempty
    rw [lexStep_other _ c h1 h2 h3]
    left
    simp
  unfold split_dot_or_dict_syntax at hr
  split_ifs at hr with hnz hcur
  · intro hrnil
    rw [hrnil] at hr
    simpa using Except.ok.inj hr
  · rcases hstate with hc' | hres
    · exact absurd hc' hcur
    · intro hrnil
      rw [hrnil] at hr
      exact hres (Except.ok.inj hr)

/-- C2 witness: the input `"a"` contains the non-structural character
`'a'`, lexes successfully to `["a"]`, and the amended theorem applies. -/
theorem claim2_amended_witness :
    (∃ c ∈ "a".data, c ≠ '.' ∧ c ≠ '[' ∧ c ≠ ']') ∧
    split_dot_or_dict_syntax "a" = .ok ["a"] ∧ (["a"] : List String) ≠ [] := by
  refine ⟨⟨'a', by decide, by decide, by decide, by decide⟩, rfl, ?_⟩
  exact claim2_amended_nonempty_output "a"
    ⟨'a', by decide, by decide, by decide, by decide⟩ ["a"] rfl

/-- C5 counterexample: the claim says the lexer fails on every improperly
nested string, naming `"a]b["` (a closing bracket before any opening one).
The code only checks the final depth, which for `"a]b["` dips to `-1` and
returns to `0`, so the scan succeeds and returns `["a]b["]`. -/
theorem claim5_counterexample :
    split_dot_or_dict_syntax "a]b[" = .ok ["a]b["] := by
  rfl

/-- C5 amended: the lexer fails (with `AssertionError`, the embedding of
`UnbalancedBracketError`) exactly when the number of `'['` characters
differs from the number of `']'` characters — i.e. exactly when the final
depth is nonzero.  Properly nested strings are accepted, but so are
improperly nested strings whose depth returns to zero, such as
`"a]b["`. -/
theorem claim5_amended_failure_iff_count_mismatch (expr : String) :
    split_dot_or_dict_syntax expr = .error .assertionError ↔
      expr.data.count '[' ≠ expr.data.count ']' := by
  have hn : (lexScan expr).nested =
      (0 : Int) + (expr.data.count '[' : Int) - (expr.data.count ']' : Int) :=
    foldl_lexStep_nested expr.data ⟨[], [], 0⟩
  unfold split_dot_or_dict_syntax
  split_ifs with hz
  · exact iff_of_true rfl (by omega)
  · exact iff_of_false (by simp) (by omega)

/-- C5 witness: `"a["` has one `'['` and no `']'`, so the amended theorem
yields the `AssertionError`. -/
theorem claim5_amended_witness :
    split_dot_or_dict_syntax "a[" = .error .assertionError :=
  (claim5_amended_failure_iff_count_mismatch "a[").mpr (by decide)

/-- C7: lengthen policy on `["sys.ipv4=127.0.0.1",
"sys.ipv4[docker0]=192.168.0.1"]`: with `lengthen = true` the earlier
scalar at `sys.ipv4` is discarded and replaced by the nested map
`{"docker0": "192.168.0.1"}`; with `lengthen = false` the second define
has no effect and `sys.ipv4` stays `"127.0.0.1"`. -/
theorem claim7_lengthen_policy :
    parse_defines ["sys.ipv4=127.0.0.1", "sys.ipv4[docker0]=192.168.0.1"]
        (1 : Nat) true false true =
      .ok [("sys", Value.map
        [("ipv4", Value.map [("docker0", Value.str "192.168.0.1")])])] ∧
    parse_defines ["sys.ipv4=127.0.0.1", "sys.ipv4[docker0]=192.168.0.1"]
        (1 : Nat) false false true =
      .ok [("sys", Value.map [("ipv4", Value.str "127.0.0.1")])] := by
  exact ⟨rfl, rfl⟩

/-- C8: shorten policy on `["sys.ipv4[docker0]=192.168.0.1",
"sys.ipv4=127.0.0.1"]`: with `shorten = false` the existing subtree at
`sys.ipv4` is kept untouched; with `shorten = true` it is pruned and
overwritten by the scalar `"127.0.0.1"`. -/
theorem claim8_shorten_policy :
    parse_defines ["sys.ipv4[docker0]=192.168.0.1", "sys.ipv4=127.0.0.1"]
        (1 : Nat) true false true =
      .ok [("sys", Value.map
        [("ipv4", Value.map [("docker0", Value.str "192.168.0.1")])])] ∧
    parse_defines ["sys.ipv4[docker0]=192.168.0.1", "sys.ipv4=127.0.0.1"]
        (1 : Nat) true true true =
      .ok [("sys", Value.map [("ipv4", Value.str "127.0.0.1")])] := by
  exact ⟨rfl, rfl⟩

/-- C6: with `lengthen = false`, whenever the head walk of a
multi-component assignment hits an existing non-Map value and aborts
(returns with the `ok` flag `false`), the tree is returned exactly as it
was before the assignment began: the abort can only happen at a
pre-existing leaf reached through pre-existing Maps, so no empty Map
created during the walk survives. -/
theorem claim6_abort_leaves_tree_unchanged {α : Type}
    (shorten logB : Bool) (v : Value α) (head : List String) (tail : String)
    (target t' : PyDict α)
    (h : setPath false shorten logB v head tail target = .ok (t', false)) :
    t' = target := by
  induction head generalizing target t' with
  | nil =>
    simp only [setPath] at h
    split at h <;> (try split at h) <;> simp_all
  | cons hd rest ih =>
    simp only [setPath] at h
    split at h
    · split at h
      · exact Except.noConfusion h
      · rename_i m okv hrec
        have htrue :=
          setPath_from_empty_never_aborts false shorten logB v rest tail m okv hrec
        simp only [Except.ok.injEq, Prod.mk.injEq] at h
        rw [htrue] at h
        exact absurd h.2 (by simp)
    · rename_i m hfk
      split at h
      · exact Except.noConfusion h
      · rename_i m' okv hrec
        simp only [Except.ok.injEq, Prod.mk.injEq] at h
        rw [h.2] at hrec
        rw [← h.1, ih m m' hrec, setk_findk_self target hd (Value.map m) hfk]
    · split at h
      · rename_i hcond
        exact absurd hcond (by simp)
      · simp only [Except.ok.injEq, Prod.mk.injEq] at h
        exact h.1.symm

/-- C6 witness: assigning `a.b = "9"` with `lengthen = false` on a tree
where `a` already holds the scalar `"x"` aborts and returns the tree
unchanged. -/
theorem claim6_witness :
    setPath false false true (Value.str "9") ["a"] "b"
        [("a", (Value.str "x" : Value Nat))] =
      .ok ([("a", Value.str "x")], false) ∧
    ([("a", (Value.str "x" : Value Nat))] : PyDict Nat) =
      [("a", Value.str "x")] :=
  ⟨rfl, claim6_abort_leaves_tree_unchanged false true (Value.str "9")
    ["a"] "b" _ _ rfl⟩

/-- C9: multi-value accumulation.  Building `["a=1","a=2","a=3"]` yields
`{"a": ["1","2","3"]}`; in general, `_add` on a key currently holding a
scalar converts it in place to the two-element list `[prior, new]`, and
`_add` on a key currently holding a list appends the new value at the end,
so list element order equals assignment order. -/
theorem claim9_multivalue_accumulation :
    parse_defines ["a=1", "a=2", "a=3"] (1 : Nat) true false true =
      .ok [("a", Value.list [Value.str "1", Value.str "2", Value.str "3"])] ∧
    (∀ (α : Type) (t : PyDict α) (key : String) (v0 new : Value α),
      findk t key = some v0 → isScalarV v0 = true →
      py_add t key new true = .ok (setk t key (Value.list [v0, new]))) ∧
    (∀ (α : Type) (t : PyDict α) (key : String) (l : List (Value α))
      (new : Value α),
      findk t key = some (Value.list l) →
      py_add t key new true = .ok (setk t key (Value.list (l ++ [new])))) := by
  refine ⟨rfl, ?_, ?_⟩
  · intro α t key v0 new hf hsc
    unfold py_add
    rw [hf]
    cases v0 with
    | str s => rfl
    | dflt d => rfl
    | list l => simp [isScalarV] at hsc
    | map m => simp [isScalarV] at hsc
  · intro α t key l new hf
    unfold py_add
    rw [hf]

/-- C9 witness: a second assignment to `"a"` converts the scalar `"1"`
into the list `["1", "2"]`. -/
theorem claim9_witness :
    py_add [("a", (Value.str "1" : Value Nat))] "a" (Value.str "2") true =
      .ok [("a", Value.list [Value.str "1", Value.str "2"])] :=
  claim9_multivalue_accumulation.2.1 Nat [("a", Value.str "1")] "a"
    (Value.str "1") (Value.str "2") rfl rfl

/-- C10: repeated bare keys accumulate the unconverted default value:
building `["a", "a"]` with `defaultValue = 1` yields `{"a": [1, 1]}`, a
list whose elements are the typed default value, not strings. -/
theorem claim10_bare_keys_accumulate_typed_default :
    parse_defines ["a", "a"] (1 : Nat) true false true =
      .ok [("a", Value.list [Value.dflt 1, Value.dflt 1])] := by
  rfl

end J2pp
